import Mathlib

/-!
Shallow embedding of the DePIN verification engine (Go implementation track:
`internal/types`, `internal/rpc`/`internal/verification`, `internal/challenge`,
`internal/store`, `internal/api`).

External effects are modelled as explicit parameters:
* network calls to RPC gateways are modelled by passing the gateway
  `RpcResponse` reply as an argument;
* `time.Now().UnixMilli()` is an `Int` argument `now`;
* `time.Now().Format(...)` is a `String` argument `nowStr`;
* UUID generation is a `String` argument;
* `math/rand` draws are read from a stream `Nat → Nat`, `Intn n` being the
  next draw modulo `n`;
* the Go `encoding/json` canonicalisation (`Unmarshal` into a map followed by
  `Marshal`) is an oracle parameter `jsonCanon : String → Option String`
  (`none` when `Unmarshal` fails).

Machine integers: `uint64` fields only ever compared are `Nat`; incremented
`uint64` counters use `% 2^64`; the `uint8` warning counter uses `% 256`.
-/

namespace DePIN

/-! ### Go map model (association list, no duplicate keys by construction) -/

/-- Lookup in a Go map modelled as an association list. -/
def mapLookup {α : Type} : List (String × α) → String → Option α
  | [], _ => none
  | (k, v) :: rest, key => if k = key then some v else mapLookup rest key

/-- `delete(m, key)` on a Go map. -/
def mapDelete {α : Type} : List (String × α) → String → List (String × α)
  | [], _ => []
  | (k, v) :: rest, key =>
    if k = key then mapDelete rest key else (k, v) :: mapDelete rest key

/-- `m[key] = v` on a Go map. -/
def mapInsert {α : Type} (m : List (String × α)) (key : String) (v : α) : List (String × α) :=
  (key, v) :: mapDelete m key

/-- In-place update of the value stored at `key` (Go code mutates the struct
through the pointer held in the map). -/
def mapUpdate {α : Type} : List (String × α) → String → (α → α) → List (String × α)
  | [], _, _ => []
  | (k, v) :: rest, key, f =>
    if k = key then (k, f v) :: mapUpdate rest key f
    else (k, v) :: mapUpdate rest key f

/-! ### String normalisation (`strings.TrimSpace`, `strings.ToLower`) -/

/-- `unicode.IsSpace` restricted to the Latin-1 range relevant to Go
`strings.TrimSpace` (ASCII whitespace plus NEL and NBSP). -/
def goIsSpace (c : Char) : Bool :=
  c.toNat = 32 ∨ c.toNat = 9 ∨ c.toNat = 10 ∨ c.toNat = 11 ∨ c.toNat = 12 ∨
    c.toNat = 13 ∨ c.toNat = 0x85 ∨ c.toNat = 0xA0

/-- `strings.TrimSpace`. -/
def trimSpace (s : String) : String :=
  ⟨((s.toList.dropWhile goIsSpace).reverse.dropWhile goIsSpace).reverse⟩

/-- Lower-case a single character (ASCII range; the answers compared by the
code are ASCII hex/JSON strings). -/
def lowerChar (c : Char) : Char :=
  if 65 ≤ c.toNat ∧ c.toNat ≤ 90 then Char.ofNat (c.toNat + 32) else c

/-- `strings.ToLower`. -/
def toLowerStr (s : String) : String :=
  ⟨s.toList.map lowerChar⟩

/-- The normalisation `strings.ToLower(strings.TrimSpace(s))` applied by
`compareAnswers` to both answers before any kind-specific comparison. -/
def normalize (s : String) : String :=
  toLowerStr (trimSpace s)

/-! ### `math/big` `Int.SetString(s, 16)` -/

/-- Value of one hex digit, `none` for a non-digit. -/
def hexVal? (c : Char) : Option Nat :=
  if 48 ≤ c.toNat ∧ c.toNat ≤ 57 then some (c.toNat - 48)
  else if 97 ≤ c.toNat ∧ c.toNat ≤ 102 then some (c.toNat - 87)
  else if 65 ≤ c.toNat ∧ c.toNat ≤ 70 then some (c.toNat - 55)
  else none

/-- Accumulate hex digits; fails on the first non-digit. -/
def hexAccum : List Char → Nat → Option Nat
  | [], acc => some acc
  | c :: rest, acc =>
    match hexVal? c with
    | some d => hexAccum rest (acc * 16 + d)
    | none => none

/-- Parse a non-empty run of hex digits. -/
def parseHexRun? : List Char → Option Nat
  | [] => none
  | l => hexAccum l 0

/-- `new(big.Int).SetString(s, 16)`: optional sign, then one or more hex
digits; no prefix and no underscores are accepted at an explicit base. -/
def bigIntSetString16 (s : String) : Option Int :=
  match s.toList with
  | '+' :: rest => (parseHexRun? rest).map Int.ofNat
  | '-' :: rest => (parseHexRun? rest).map (fun n => -(n : Int))
  | l => (parseHexRun? l).map Int.ofNat

/-- `strings.TrimPrefix(s, "0x")`. -/
def drop0x (s : String) : String :=
  match s.toList with
  | '0' :: 'x' :: rest => ⟨rest⟩
  | _ => s

/-! ### Constants from `internal/types/types.go` -/

/-- Challenge kind `block-hash` (`types.BlockHash`). -/
def BlockHash : String := "block-hash"

/-- Challenge kind `block-data` (`types.BlockData`). -/
def BlockData : String := "block-data"

/-- Challenge kind `state-balance` (`types.StateBalance`). -/
def StateBalance : String := "state-balance"

/-- Challenge kind `tx-receipt` (`types.TxReceipt`). -/
def TxReceipt : String := "tx-receipt"

/-- Challenge kind `sync-status` (`types.SyncStatus`). -/
def SyncStatus : String := "sync-status"

/-- Cheat status `clean`. -/
def StatusClean : String := "clean"

/-- Cheat status `warning`. -/
def StatusWarning : String := "warning"

/-- Cheat status `flagged`. -/
def StatusFlagged : String := "flagged"

/-- Cheat status `banned`. -/
def StatusBanned : String := "banned"

/-- Node type `bsc-full`. -/
def BscFull : String := "bsc-full"

/-- Node type `bsc-fast`. -/
def BscFast : String := "bsc-fast"

/-- Node type `bsc-archive`. -/
def BscArchive : String := "bsc-archive"

/-- Node type `opbnb-full`. -/
def OpbnbFull : String := "opbnb-full"

/-- Node type `opbnb-fast`. -/
def OpbnbFast : String := "opbnb-fast"

/-- `types.LatencySuspiciousMin` (ms). -/
def LatencySuspiciousMin : Nat := 150

/-- `types.LatencyMaxAllowed` (ms). -/
def LatencyMaxAllowed : Nat := 5000

/-! ### Data structures from `internal/types/types.go` -/

/-- `types.ChallengeParams`. -/
structure ChallengeParams where
  blockNumber : Option Nat
  address : String
  txHash : String
  deriving DecidableEq, Repr

/-- `types.Challenge`. -/
structure Challenge where
  id : String
  nodeID : String
  challengeType : String
  createdAt : Int
  expiresAt : Int
  params : ChallengeParams
  deriving DecidableEq, Repr

/-- `types.ChallengeResponse` (untrusted input). -/
structure ChallengeResponse where
  challengeID : String
  nodeID : String
  answer : String
  signature : String
  responseTimeMs : Nat
  timestamp : Int
  deriving DecidableEq, Repr

/-- `types.VerificationResult`. -/
structure VerificationResult where
  challengeID : String
  nodeID : String
  passed : Bool
  responseTimeMs : Nat
  failureReason : String
  suspicious : Bool
  suspiciousNote : String
  timestamp : Int
  deriving DecidableEq, Repr

/-- `types.NodeRegistration`. -/
structure NodeRegistration where
  id : String
  walletAddress : String
  nodeType : String
  verificationMethod : String
  rpcEndpoint : String
  authToken : String
  registeredAt : Int
  lastVerifiedAt : Int
  lastHeartbeatAt : Int
  totalChallengesPassed : Nat
  totalChallengesFailed : Nat
  totalUptimeMinutes : Nat
  totalPoints : Nat
  isActive : Bool
  cheatStatus : String
  warningCount : Nat
  cheatReason : String
  suspiciousEvents : List String
  deriving DecidableEq, Repr

/-- `rpc.RpcResponse`: outcome of one gateway call. -/
structure RpcResponse where
  success : Bool
  data : String
  error : String
  latencyMs : Nat
  deriving DecidableEq, Repr

/-! ### Answer comparator (`Verifier.compareAnswers`) -/

/-- `Verifier.compareAnswers`. `jsonCanon` models `encoding/json`
`Unmarshal`-into-map followed by `Marshal` (`none` = `Unmarshal` error). -/
def compareAnswers (jsonCanon : String → Option String)
    (submitted expected challengeType : String) : Bool :=
  let s := normalize submitted
  let e := normalize expected
  if challengeType = BlockHash then
    s = e
  else if challengeType = StateBalance then
    match bigIntSetString16 (drop0x s), bigIntSetString16 (drop0x e) with
    | some a, some b => a = b
    | _, _ => s = e
  else if challengeType = BlockData ∨ challengeType = SyncStatus then
    match jsonCanon s, jsonCanon e with
    | some sj, some ej => sj = ej
    | _, _ => s = e
  else
    s = e

/-! ### Verification engine (`internal/verification`, file `client.go` part 2) -/

/-- `verification.pendingChallenge`. -/
structure PendingChallenge where
  challenge : Challenge
  expectedAnswer : String
  deriving DecidableEq, Repr

/-- The `pendingChallenges` map of the verifier. -/
def PendingMap : Type := List (String × PendingChallenge)

/-- `Verifier.CreateChallenge`, with the generated challenge and the trusted
reply of the gateway passed in. Returns the outcome paired with the
pending-challenge map after the call. -/
def createChallenge (pending : PendingMap) (ch : Challenge)
    (oracleResponse : RpcResponse) : Except String Challenge × PendingMap :=
  if ¬ oracleResponse.success then
    (Except.error ("failed to get expected answer: " ++ oracleResponse.error), pending)
  else
    (Except.ok ch,
      mapInsert pending ch.id ⟨ch, oracleResponse.data⟩)

/-- `Verifier.VerifyResponse`: adjudicate a submitted answer at time `now`.
Returns the result and the pending map after the call. The Go code logs
suspicious latency on the passing path but sets no field of the result. -/
def verifyResponse (jsonCanon : String → Option String) (pending : PendingMap)
    (response : ChallengeResponse) (now : Int) : VerificationResult × PendingMap :=
  match mapLookup pending response.challengeID with
  | none =>
    ({ challengeID := response.challengeID
       nodeID := response.nodeID
       passed := false
       responseTimeMs := response.responseTimeMs
       failureReason := "challenge not found or expired"
       suspicious := false
       suspiciousNote := ""
       timestamp := now }, pending)
  | some pc =>
    if now > pc.challenge.expiresAt then
      ({ challengeID := response.challengeID
         nodeID := response.nodeID
         passed := false
         responseTimeMs := response.responseTimeMs
         failureReason := "challenge expired"
         suspicious := false
         suspiciousNote := ""
         timestamp := now }, mapDelete pending response.challengeID)
    else if ¬ compareAnswers jsonCanon response.answer pc.expectedAnswer
        pc.challenge.challengeType then
      ({ challengeID := response.challengeID
         nodeID := response.nodeID
         passed := false
         responseTimeMs := response.responseTimeMs
         failureReason := "incorrect answer"
         suspicious := false
         suspiciousNote := ""
         timestamp := now }, mapDelete pending response.challengeID)
    else if response.responseTimeMs > LatencyMaxAllowed then
      ({ challengeID := response.challengeID
         nodeID := response.nodeID
         passed := false
         responseTimeMs := response.responseTimeMs
         failureReason := "response too slow"
         suspicious := false
         suspiciousNote := ""
         timestamp := now }, mapDelete pending response.challengeID)
    else
      ({ challengeID := response.challengeID
         nodeID := response.nodeID
         passed := true
         responseTimeMs := response.responseTimeMs
         failureReason := ""
         suspicious := false
         suspiciousNote := ""
         timestamp := now }, mapDelete pending response.challengeID)

/-- `Verifier.VerifyExposedRPC`, with the generated challenge and the two
gateway replies (trusted node, candidate node) passed in. -/
def verifyExposedRPC (jsonCanon : String → Option String)
    (node : NodeRegistration) (ch : Challenge)
    (expectedResponse userResponse : RpcResponse) (now : Int) : VerificationResult :=
  if node.rpcEndpoint = "" then
    { challengeID := "direct-" ++ toString now
      nodeID := node.id
      passed := false
      responseTimeMs := 0
      failureReason := "no RPC endpoint configured"
      suspicious := false
      suspiciousNote := ""
      timestamp := now }
  else if ¬ expectedResponse.success then
    { challengeID := ch.id
      nodeID := node.id
      passed := false
      responseTimeMs := 0
      failureReason := "trusted node error: " ++ expectedResponse.error
      suspicious := false
      suspiciousNote := ""
      timestamp := now }
  else if ¬ userResponse.success then
    { challengeID := ch.id
      nodeID := node.id
      passed := false
      responseTimeMs := userResponse.latencyMs
      failureReason := userResponse.error
      suspicious := false
      suspiciousNote := ""
      timestamp := now }
  else if ¬ compareAnswers jsonCanon userResponse.data expectedResponse.data
      ch.challengeType then
    { challengeID := ch.id
      nodeID := node.id
      passed := false
      responseTimeMs := userResponse.latencyMs
      failureReason := "incorrect answer"
      suspicious := false
      suspiciousNote := ""
      timestamp := now }
  else
    { challengeID := ch.id
      nodeID := node.id
      passed := true
      responseTimeMs := userResponse.latencyMs
      failureReason := ""
      suspicious := false
      suspiciousNote := ""
      timestamp := now }

/-! ### Challenge generator (`internal/challenge`) -/

/-- `challenge.knownAddresses` (lower-cased by nothing: stored as written). -/
def knownAddresses : List String :=
  ["0xbb4CdB9CBd36B01bD1cBaEBF2De08d9173bc095c",
   "0x55d398326f99059fF775485246999027B3197955",
   "0x8AC76a51cc950d9822D68b83fE1Ad97B32Cd580d",
   "0xe9e7CEA3DedcA5984780Bafc599bD69ADd087D56",
   "0x2170Ed0880ac9A755fd29B2688956BD959F933F8",
   "0x0E09FaBB73Bd3Ade0a17ECC321fD13a19e81cE82",
   "0x7130d2A12B9BCbFAe4f2634d864A1Ee1Ce3Ead9c"]

/-- `challenge.blockRange`. -/
structure BlockRange where
  min : Nat
  safeMax : Nat
  recentWindow : Nat
  deriving DecidableEq, Repr

/-- `challenge.bscBlockRanges`. -/
def bscBlockRanges : BlockRange := ⟨1000000, 45000000, 100⟩

/-- `challenge.opbnbBlockRanges`. -/
def opbnbBlockRanges : BlockRange := ⟨1000, 30000000, 100⟩

/-- `Generator.getBlockRanges`. -/
def getBlockRanges (nodeType : String) : BlockRange :=
  if nodeType = OpbnbFull ∨ nodeType = OpbnbFast then opbnbBlockRanges
  else bscBlockRanges

/-- `Generator.getAvailableChallengeTypes`: which challenge kinds a node tier
may be asked. -/
def getAvailableChallengeTypes (nodeType : String) : List String :=
  if nodeType = BscArchive then
    [BlockHash, BlockData, StateBalance, SyncStatus]
  else if nodeType = BscFull ∨ nodeType = OpbnbFull then
    [BlockHash, BlockData, SyncStatus]
  else
    [BlockHash, SyncStatus]

/-- `Generator.randomBlockNumber`, the raw random draw `r` standing for
`rng.Int63n(max-min+1)`. -/
def randomBlockNumber (r : Nat) (min max : Nat) : Nat :=
  min + r % (max - min + 1)

/-- `Generator.generateParams`, drawing randomness from the stream `rand`. -/
def generateParams (rand : Nat → Nat) (challengeType nodeType : String) :
    ChallengeParams :=
  let ranges := getBlockRanges nodeType
  if challengeType = BlockHash ∨ challengeType = BlockData then
    { blockNumber := some (randomBlockNumber (rand 0) ranges.min ranges.safeMax)
      address := ""
      txHash := "" }
  else if challengeType = StateBalance then
    let minBlock := if nodeType = BscArchive then ranges.min else ranges.safeMax - 10000
    { blockNumber := some (randomBlockNumber (rand 0) minBlock ranges.safeMax)
      address := (knownAddresses.getD (rand 1 % knownAddresses.length) "")
      txHash := "" }
  else
    { blockNumber := none, address := "", txHash := "" }

/-- `Generator.GenerateChallenge`: `uuid` stands for `uuid.New().String()`,
`now` for `time.Now().UnixMilli()`, and `rand` for the generator
`math/rand` stream (`rand 0` is the `Intn(len(challengeTypes))` draw). -/
def generateChallenge (rand : Nat → Nat) (uuid : String)
    (nodeID nodeType : String) (now : Int) : Challenge :=
  let challengeTypes := getAvailableChallengeTypes nodeType
  let challengeType := challengeTypes.getD (rand 0 % challengeTypes.length) ""
  { id := uuid
    nodeID := nodeID
    challengeType := challengeType
    createdAt := now
    expiresAt := now + 60000
    params := generateParams (fun i => rand (i + 1)) challengeType nodeType }

/-! ### Node store (`internal/store`, anti-cheat variant) -/

/-- `store.Store` (heartbeat history omitted: no operation modelled here
touches it). -/
structure Store where
  nodes : List (String × NodeRegistration)
  nodesByWallet : List (String × List String)
  verificationHistory : List (String × List VerificationResult)
  deriving Repr

/-- `store.NewStore()`. -/
def newStore : Store := ⟨[], [], []⟩

/-- `Store.RegisterNode` with the fresh UUID and the current time passed in.
`registrationBonus` is `NodeType.RegistrationBonus()`. -/
def registrationBonus (nodeType : String) : Nat :=
  if nodeType = BscArchive then 100
  else if nodeType = BscFull then 50
  else if nodeType = BscFast then 40
  else if nodeType = OpbnbFull then 40
  else if nodeType = OpbnbFast then 30
  else 0

/-- `Store.RegisterNode` (anti-cheat store variant). -/
def registerNode (s : Store) (uuid walletAddress nodeType method rpcEndpoint
    authToken : String) (now : Int) : NodeRegistration × Store :=
  let node : NodeRegistration :=
    { id := uuid
      walletAddress := walletAddress
      nodeType := nodeType
      verificationMethod := method
      rpcEndpoint := rpcEndpoint
      authToken := authToken
      registeredAt := now
      lastVerifiedAt := 0
      lastHeartbeatAt := 0
      totalChallengesPassed := 0
      totalChallengesFailed := 0
      totalUptimeMinutes := 0
      totalPoints := registrationBonus nodeType
      isActive := true
      cheatStatus := StatusClean
      warningCount := 0
      cheatReason := ""
      suspiciousEvents := [] }
  (node,
    { s with
      nodes := mapInsert s.nodes node.id node
      nodesByWallet := mapInsert s.nodesByWallet walletAddress
        ((mapLookup s.nodesByWallet walletAddress).getD [] ++ [node.id]) })

/-- The node-record mutation performed by `Store.RecordVerificationResult`
when the node exists. `nowStr` stands for `time.Now().Format(...)`. -/
def recordResultNode (node : NodeRegistration) (result : VerificationResult)
    (nowStr : String) : NodeRegistration :=
  let node :=
    if result.passed then
      { node with totalChallengesPassed := (node.totalChallengesPassed + 1) % 2 ^ 64 }
    else
      { node with totalChallengesFailed := (node.totalChallengesFailed + 1) % 2 ^ 64 }
  let node := { node with lastVerifiedAt := result.timestamp }
  if result.suspicious then
    let event :=
      if result.suspiciousNote = "" then "Suspicious verification detected"
      else result.suspiciousNote
    let events := node.suspiciousEvents ++ [nowStr ++ ": " ++ event]
    let events := if events.length > 20 then events.drop 1 else events
    let node := { node with
      suspiciousEvents := events
      warningCount := (node.warningCount + 1) % 256 }
    if node.warningCount ≥ 5 then
      { node with
        cheatStatus := StatusFlagged
        cheatReason := "Multiple suspicious activities - needs manual review" }
    else if node.warningCount ≥ 2 then
      { node with cheatStatus := StatusWarning, cheatReason := event }
    else node
  else node

/-- `Store.RecordVerificationResult` (anti-cheat store variant). -/
def recordVerificationResult (s : Store) (result : VerificationResult)
    (nowStr : String) : Store :=
  let history := (mapLookup s.verificationHistory result.nodeID).getD [] ++ [result]
  let history := if history.length > 1000 then history.drop 1 else history
  let s := { s with
    verificationHistory := mapInsert s.verificationHistory result.nodeID history }
  match mapLookup s.nodes result.nodeID with
  | none => s
  | some _ =>
    { s with
      nodes := mapUpdate s.nodes result.nodeID
        (fun node => recordResultNode node result nowStr) }

/-- The node-record mutation performed by `Store.AddSuspiciousEvent`. -/
def addSuspiciousEventNode (node : NodeRegistration) (reason nowStr : String) :
    NodeRegistration :=
  let event := nowStr ++ ": " ++ reason
  let events := node.suspiciousEvents ++ [event]
  let events := if events.length > 20 then events.drop 1 else events
  let node := { node with
    suspiciousEvents := events
    warningCount := (node.warningCount + 1) % 256 }
  if node.warningCount ≥ 5 then
    { node with
      cheatStatus := StatusFlagged
      cheatReason := "Multiple suspicious activities detected - needs manual review" }
  else if node.warningCount ≥ 2 then
    { node with cheatStatus := StatusWarning, cheatReason := reason }
  else node

/-- `Store.AddSuspiciousEvent`. -/
def addSuspiciousEvent (s : Store) (nodeID reason nowStr : String) : Store :=
  match mapLookup s.nodes nodeID with
  | none => s
  | some _ =>
    { s with
      nodes := mapUpdate s.nodes nodeID
        (fun node => addSuspiciousEventNode node reason nowStr) }

/-- The node-record mutation performed by `Store.SetNodeCheatStatus`. -/
def setCheatStatusNode (node : NodeRegistration) (status reason : String) :
    NodeRegistration :=
  let node := { node with cheatStatus := status, cheatReason := reason }
  let node :=
    if status = StatusClean then
      { node with warningCount := 0, suspiciousEvents := [] }
    else node
  if status = StatusBanned then { node with isActive := false } else node

/-- `Store.SetNodeCheatStatus`: admin action; returns whether the node was
found, and the store after the call. -/
def setNodeCheatStatus (s : Store) (nodeID status reason : String) :
    Bool × Store :=
  match mapLookup s.nodes nodeID with
  | none => (false, s)
  | some _ =>
    (true,
      { s with
        nodes := mapUpdate s.nodes nodeID
          (fun node => setCheatStatusNode node status reason) })

/-- The status chosen by `Handlers.ReviewNode` for a review action
(`none` = invalid action, rejected with HTTP 400 before touching the store). -/
def reviewActionStatus (action : String) : Option String :=
  if action = "clear" then some StatusClean
  else if action = "warn" then some StatusWarning
  else if action = "ban" then some StatusBanned
  else none

/-- `Handlers.ReviewNode` restricted to its effect on the store. -/
def reviewNode (s : Store) (nodeID action reason : String) : Store :=
  match reviewActionStatus action with
  | none => s
  | some status => (setNodeCheatStatus s nodeID status reason).2

/-! ### Sequences of store operations (for the trust-state invariants) -/

/-- One store operation among those that touch the anti-cheat state. -/
inductive StoreOp where
  | record (result : VerificationResult) (nowStr : String)
  | addEvent (nodeID reason nowStr : String)
  | review (nodeID action reason : String)
  deriving Repr

/-- Apply one store operation. -/
def applyStoreOp (s : Store) : StoreOp → Store
  | StoreOp.record result nowStr => recordVerificationResult s result nowStr
  | StoreOp.addEvent nodeID reason nowStr => addSuspiciousEvent s nodeID reason nowStr
  | StoreOp.review nodeID action reason => reviewNode s nodeID action reason

/-- Apply a sequence of store operations, first to last. -/
def applyStoreOps (s : Store) (ops : List StoreOp) : Store :=
  ops.foldl applyStoreOp s

/-- Spec ordering of cheat statuses: Clean < Warning < Flagged < Banned. -/
def cheatRank (status : String) : Nat :=
  if status = StatusClean then 0
  else if status = StatusWarning then 1
  else if status = StatusFlagged then 2
  else if status = StatusBanned then 3
  else 0

/-- Whether a store operation is the administrative clear of the given node
(`ReviewNode` with action `"clear"`). -/
def opIsClearFor : StoreOp → String → Bool
  | StoreOp.review nid action _, nodeID => nid = nodeID ∧ action = "clear"
  | _, _ => false

/-- Run a sequence of `VerifyResponse` calls, each with its own submission
time, threading the pending-challenge map; collect the results. -/
def runResponses (jsonCanon : String → Option String) :
    PendingMap → List (ChallengeResponse × Int) → List VerificationResult
  | _, [] => []
  | s, (r, now) :: rest =>
    (verifyResponse jsonCanon s r now).1 ::
      runResponses jsonCanon (verifyResponse jsonCanon s r now).2 rest

/-! ### Concrete instances used by witnesses and counterexamples -/

/-- A concrete JSON oracle (every string fails to unmarshal). -/
def jsonCanonNone : String → Option String := fun _ => none

/-- A concrete pending challenge expiring at 60000 ms. -/
def exampleChallenge : Challenge :=
  { id := "c1"
    nodeID := "n1"
    challengeType := BlockHash
    createdAt := 0
    expiresAt := 60000
    params := ⟨none, "", ""⟩ }

/-- A pending map holding `exampleChallenge` with expected answer `"abc"`. -/
def examplePending : PendingMap := [("c1", ⟨exampleChallenge, "abc"⟩)]

/-- A concrete response to `exampleChallenge`. -/
def exampleResponse (t : Nat) (ans : String) : ChallengeResponse :=
  { challengeID := "c1"
    nodeID := "n1"
    answer := ans
    signature := ""
    responseTimeMs := t
    timestamp := 0 }

/-- A concrete registered node with an exposed RPC endpoint. -/
def exampleNode : NodeRegistration :=
  { id := "n1"
    walletAddress := "w"
    nodeType := BscFull
    verificationMethod := "exposed-rpc"
    rpcEndpoint := "http://node.example:8545"
    authToken := ""
    registeredAt := 0
    lastVerifiedAt := 0
    lastHeartbeatAt := 0
    totalChallengesPassed := 0
    totalChallengesFailed := 0
    totalUptimeMinutes := 0
    totalPoints := 0
    isActive := true
    cheatStatus := StatusClean
    warningCount := 0
    cheatReason := ""
    suspiciousEvents := [] }

/-- A store holding one freshly registered node `"n1"`. -/
def exampleStore : Store :=
  (registerNode newStore "n1" "w" BscFull "local-prover" "" "" 0).2

/-- The node record held by `exampleStore`. -/
def exampleStoredNode : NodeRegistration :=
  (registerNode newStore "n1" "w" BscFull "local-prover" "" "" 0).1

/-- A concrete pass-but-suspicious verification result for node `"n1"`. -/
def exampleSuspiciousResult : VerificationResult :=
  { challengeID := "c9"
    nodeID := "n1"
    passed := true
    responseTimeMs := 200
    failureReason := ""
    suspicious := true
    suspiciousNote := "high latency"
    timestamp := 5 }

/-! ### Map lemmas -/

theorem mapLookup_mapDelete_self {α : Type} (m : List (String × α)) (k : String) :
    mapLookup (mapDelete m k) k = none := by
  induction m with
  | nil => rfl
  | cons p rest ih =>
    obtain ⟨k', v⟩ := p
    by_cases h : k' = k
    · simpa [mapDelete, h] using ih
    · simpa [mapDelete, mapLookup, h] using ih

theorem mapLookup_mapUpdate_self {α : Type} (m : List (String × α)) (k : String)
    (f : α → α) : mapLookup (mapUpdate m k f) k = (mapLookup m k).map f := by
  induction m with
  | nil => rfl
  | cons p rest ih =>
    obtain ⟨k', v⟩ := p
    by_cases h : k' = k
    · simp [mapUpdate, mapLookup, h]
    · simpa [mapUpdate, mapLookup, h] using ih

theorem mapLookup_mapUpdate_ne {α : Type} (m : List (String × α)) (k key : String)
    (f : α → α) (h : key ≠ k) :
    mapLookup (mapUpdate m k f) key = mapLookup m key := by
  induction m with
  | nil => rfl
  | cons p rest ih =>
    obtain ⟨k', v⟩ := p
    by_cases hk : k' = k
    · have hne : ¬ k = key := fun hc => h hc.symm
      simpa [mapUpdate, mapLookup, hk, hne] using ih
    · by_cases hkey : k' = key
      · simp [mapUpdate, mapLookup, hk, hkey, h]
      · simpa [mapUpdate, mapLookup, hk, hkey] using ih

/-! ### VerifyResponse lemmas -/

/-- With an unknown (or already consumed) challenge ID, `VerifyResponse`
fails with the not-found reason and leaves the map unchanged. -/
theorem verifyResponse_not_found (jc : String → Option String) (s : PendingMap)
    (r : ChallengeResponse) (now : Int) (h : mapLookup s r.challengeID = none) :
    verifyResponse jc s r now =
      ({ challengeID := r.challengeID
         nodeID := r.nodeID
         passed := false
         responseTimeMs := r.responseTimeMs
         failureReason := "challenge not found or expired"
         suspicious := false
         suspiciousNote := ""
         timestamp := now }, s) := by
  unfold verifyResponse
  rw [h]

/-- After any `VerifyResponse` call, the challenge ID of the response is no longer
in the pending map. -/
theorem verifyResponse_clears (jc : String → Option String) (s : PendingMap)
    (r : ChallengeResponse) (now : Int) :
    mapLookup (verifyResponse jc s r now).2 r.challengeID = none := by
  unfold verifyResponse
  cases h : mapLookup s r.challengeID with
  | none => simpa using h
  | some pc =>
    by_cases h1 : now > pc.challenge.expiresAt
    · simp [h1, mapLookup_mapDelete_self]
    · by_cases h2 : compareAnswers jc r.answer pc.expectedAnswer pc.challenge.challengeType
      · by_cases h3 : r.responseTimeMs > LatencyMaxAllowed
        · simp [h1, h2, h3, mapLookup_mapDelete_self]
        · simp [h1, h2, h3, mapLookup_mapDelete_self]
      · simp [h1, h2, mapLookup_mapDelete_self]

/-- Every result of a run over a map with no pending entry for the common
challenge ID is a failure. -/
theorem runResponses_no_pending (jc : String → Option String) (c : String)
    (s : PendingMap) (rs : List (ChallengeResponse × Int))
    (hs : mapLookup s c = none) (hc : ∀ p ∈ rs, p.1.challengeID = c) :
    ∀ res ∈ runResponses jc s rs, res.passed = false := by
  induction rs generalizing s with
  | nil => simp [runResponses]
  | cons p rest ih =>
    obtain ⟨r, now⟩ := p
    have hid : r.challengeID = c := hc (r, now) (by simp)
    have h1 : mapLookup s r.challengeID = none := by rw [hid]; exact hs
    intro res hres
    rw [runResponses, verifyResponse_not_found jc s r now h1] at hres
    rcases List.mem_cons.mp hres with hres | hres
    · rw [hres]
    · exact ih s hs (fun q hq => hc q (List.mem_cons_of_mem _ hq)) res hres

/-! ### Store lemmas -/

theorem recordResultNode_not_suspicious (node : NodeRegistration)
    (result : VerificationResult) (nowStr : String)
    (h : result.suspicious = false) :
    (recordResultNode node result nowStr).warningCount = node.warningCount ∧
    (recordResultNode node result nowStr).cheatStatus = node.cheatStatus ∧
    (recordResultNode node result nowStr).suspiciousEvents = node.suspiciousEvents := by
  unfold recordResultNode
  cases hp : result.passed <;> simp [h, hp]

theorem recordResultNode_suspicious (node : NodeRegistration)
    (result : VerificationResult) (nowStr : String)
    (hs : result.suspicious = true) (hw : node.warningCount < 255) :
    (recordResultNode node result nowStr).warningCount = node.warningCount + 1 ∧
    (recordResultNode node result nowStr).suspiciousEvents =
      (if (node.suspiciousEvents ++
            [nowStr ++ ": " ++ (if result.suspiciousNote = "" then
              "Suspicious verification detected" else result.suspiciousNote)]).length > 20
       then (node.suspiciousEvents ++
            [nowStr ++ ": " ++ (if result.suspiciousNote = "" then
              "Suspicious verification detected" else result.suspiciousNote)]).drop 1
       else node.suspiciousEvents ++
            [nowStr ++ ": " ++ (if result.suspiciousNote = "" then
              "Suspicious verification detected" else result.suspiciousNote)]) ∧
    (recordResultNode node result nowStr).cheatStatus =
      (if node.warningCount + 1 ≥ 5 then StatusFlagged
       else if node.warningCount + 1 ≥ 2 then StatusWarning
       else node.cheatStatus) := by
  have hmod : (node.warningCount + 1) % 256 = node.warningCount + 1 :=
    Nat.mod_eq_of_lt (by omega)
  unfold recordResultNode
  cases hp : result.passed <;> simp [hs, hp, hmod] <;> split_ifs <;> simp_all

theorem addSuspiciousEventNode_fields (node : NodeRegistration)
    (reason nowStr : String) (hw : node.warningCount < 255) :
    (addSuspiciousEventNode node reason nowStr).warningCount = node.warningCount + 1 ∧
    (addSuspiciousEventNode node reason nowStr).cheatStatus =
      (if node.warningCount + 1 ≥ 5 then StatusFlagged
       else if node.warningCount + 1 ≥ 2 then StatusWarning
       else node.cheatStatus) := by
  have hmod : (node.warningCount + 1) % 256 = node.warningCount + 1 :=
    Nat.mod_eq_of_lt (by omega)
  unfold addSuspiciousEventNode
  simp [hmod]
  split_ifs <;> simp_all

theorem setCheatStatusNode_clean (node : NodeRegistration) (reason : String) :
    setCheatStatusNode node StatusClean reason =
      { node with
        cheatStatus := StatusClean
        cheatReason := reason
        warningCount := 0
        suspiciousEvents := [] } := by
  have h1 : ¬ (StatusClean = StatusBanned) := by decide
  unfold setCheatStatusNode
  simp [h1]

theorem setCheatStatusNode_not_clean (node : NodeRegistration)
    (status reason : String) (h : ¬ status = StatusClean) :
    (setCheatStatusNode node status reason).warningCount = node.warningCount ∧
    (setCheatStatusNode node status reason).suspiciousEvents = node.suspiciousEvents ∧
    (setCheatStatusNode node status reason).cheatStatus = status := by
  unfold setCheatStatusNode
  split_ifs <;> simp_all

theorem recordVerificationResult_nodes (s : Store) (result : VerificationResult)
    (nowStr : String) :
    (recordVerificationResult s result nowStr).nodes =
      (match mapLookup s.nodes result.nodeID with
       | none => s.nodes
       | some _ =>
         mapUpdate s.nodes result.nodeID
           (fun node => recordResultNode node result nowStr)) := by
  unfold recordVerificationResult
  cases h : mapLookup s.nodes result.nodeID <;> simp [h]

theorem addSuspiciousEvent_nodes (s : Store) (nodeID reason nowStr : String) :
    (addSuspiciousEvent s nodeID reason nowStr).nodes =
      (match mapLookup s.nodes nodeID with
       | none => s.nodes
       | some _ =>
         mapUpdate s.nodes nodeID
           (fun node => addSuspiciousEventNode node reason nowStr)) := by
  unfold addSuspiciousEvent
  cases h : mapLookup s.nodes nodeID <;> simp [h]

theorem setNodeCheatStatus_nodes (s : Store) (nodeID status reason : String) :
    (setNodeCheatStatus s nodeID status reason).2.nodes =
      (match mapLookup s.nodes nodeID with
       | none => s.nodes
       | some _ =>
         mapUpdate s.nodes nodeID
           (fun node => setCheatStatusNode node status reason)) := by
  unfold setNodeCheatStatus
  cases h : mapLookup s.nodes nodeID <;> simp [h]

/-- Setting status Clean on an existing node resets warning count, ring and
status in the same operation. -/
theorem setNodeCheatStatus_clean_resets (s : Store) (nodeID reason : String)
    (node : NodeRegistration) (h : mapLookup s.nodes nodeID = some node) :
    mapLookup (setNodeCheatStatus s nodeID StatusClean reason).2.nodes nodeID =
      some { node with
        cheatStatus := StatusClean
        cheatReason := reason
        warningCount := 0
        suspiciousEvents := [] } := by
  rw [setNodeCheatStatus_nodes, h, mapLookup_mapUpdate_self, h]
  simp [setCheatStatusNode_clean]

/-! ### Claim C1 -/

/-- C1: the claim says a correct answer with `responseTimeMs` strictly between
150 and 5000 yields `passed = true, suspicious = true` and a non-empty
suspicious note. The tests of the repository itself
(`TestVerifyResponseSuspiciousLatency`) assert exactly that, but
`Verifier.VerifyResponse` only logs the suspicious latency and never sets the
`Suspicious`/`SuspiciousNote` fields: at the failing input (pending unexpired
challenge, correct answer, `responseTimeMs = 200`) the result is a pass with
`suspicious = false` and an empty note. -/
theorem C1_suspicious_latency_fields_never_set :
    LatencySuspiciousMin < 200 ∧ 200 < LatencyMaxAllowed ∧
    (verifyResponse jsonCanonNone examplePending (exampleResponse 200 "abc") 10).1.passed
      = true ∧
    (verifyResponse jsonCanonNone examplePending (exampleResponse 200 "abc") 10).1.suspicious
      = false ∧
    (verifyResponse jsonCanonNone examplePending (exampleResponse 200 "abc") 10).1.suspiciousNote
      = "" := by
  decide

/-! ### Claim C2 -/

/-- C2 counterexample: the claim says a correct answer with `responseTimeMs`
exactly 5000 fails; in the code the latency guard is strict
(`ResponseTimeMs > LatencyMaxAllowed`), so at 5000 ms the response passes. -/
theorem C2_counterexample_boundary_5000_passes :
    (exampleResponse 5000 "abc").responseTimeMs = LatencyMaxAllowed ∧
    (verifyResponse jsonCanonNone examplePending (exampleResponse 5000 "abc") 10).1.passed
      = true ∧
    (verifyResponse jsonCanonNone examplePending (exampleResponse 5000 "abc") 10).1.failureReason
      = "" := by
  decide

/-- C2 (amended): for a pending, unexpired challenge, a response with
`responseTimeMs` strictly greater than 5000 yields `passed = false` (with
reason "response too slow" when the answer is correct), while a correct
answer with `responseTimeMs` exactly 5000 passes. -/
theorem C2_hard_ceiling_is_strict :
    (∀ (jc : String → Option String) (s : PendingMap) (r : ChallengeResponse)
      (now : Int) (pc : PendingChallenge),
      mapLookup s r.challengeID = some pc →
      ¬ now > pc.challenge.expiresAt →
      r.responseTimeMs > LatencyMaxAllowed →
      (verifyResponse jc s r now).1.passed = false ∧
      (compareAnswers jc r.answer pc.expectedAnswer pc.challenge.challengeType = true →
        (verifyResponse jc s r now).1.failureReason = "response too slow")) ∧
    (∀ (jc : String → Option String) (s : PendingMap) (r : ChallengeResponse)
      (now : Int) (pc : PendingChallenge),
      mapLookup s r.challengeID = some pc →
      ¬ now > pc.challenge.expiresAt →
      compareAnswers jc r.answer pc.expectedAnswer pc.challenge.challengeType = true →
      r.responseTimeMs = LatencyMaxAllowed →
      (verifyResponse jc s r now).1.passed = true) := by
  constructor
  · intro jc s r now pc hpc hexp hslow
    unfold verifyResponse
    rw [hpc]
    by_cases hcmp : compareAnswers jc r.answer pc.expectedAnswer pc.challenge.challengeType
    · simp [hexp, hcmp, hslow]
    · simp [hexp, hcmp]
  · intro jc s r now pc hpc hexp hcmp ht
    have hns : ¬ r.responseTimeMs > LatencyMaxAllowed := by omega
    unfold verifyResponse
    rw [hpc]
    simp [hexp, hcmp, hns]

/-- C2 witness: the amended theorem applied at a concrete slow response. -/
theorem C2_hard_ceiling_is_strict_witness :
    (verifyResponse jsonCanonNone examplePending (exampleResponse 5001 "abc") 10).1.passed
      = false :=
  ((C2_hard_ceiling_is_strict.1 jsonCanonNone examplePending
    (exampleResponse 5001 "abc") 10 ⟨exampleChallenge, "abc"⟩
    (by decide) (by decide) (by decide))).1

/-! ### Claim C4 -/

/-- C4: `VerifyResponse` evaluates its conditions in the strict order
not-found, expired, incorrect answer, too slow, pass; the first matching
condition determines the result, and the pending record is deleted on every
resolution except the not-found case. In particular a wrong answer with
`responseTimeMs` over the ceiling is reported as "incorrect answer". -/
theorem C4_verifyResponse_evaluation_order (jc : String → Option String)
    (s : PendingMap) (r : ChallengeResponse) (now : Int) :
    (mapLookup s r.challengeID = none →
      verifyResponse jc s r now =
        ({ challengeID := r.challengeID, nodeID := r.nodeID, passed := false,
           responseTimeMs := r.responseTimeMs,
           failureReason := "challenge not found or expired",
           suspicious := false, suspiciousNote := "", timestamp := now }, s)) ∧
    (∀ pc, mapLookup s r.challengeID = some pc →
      (now > pc.challenge.expiresAt →
        verifyResponse jc s r now =
          ({ challengeID := r.challengeID, nodeID := r.nodeID, passed := false,
             responseTimeMs := r.responseTimeMs,
             failureReason := "challenge expired",
             suspicious := false, suspiciousNote := "", timestamp := now },
           mapDelete s r.challengeID)) ∧
      (¬ now > pc.challenge.expiresAt →
        ¬ compareAnswers jc r.answer pc.expectedAnswer pc.challenge.challengeType →
        verifyResponse jc s r now =
          ({ challengeID := r.challengeID, nodeID := r.nodeID, passed := false,
             responseTimeMs := r.responseTimeMs,
             failureReason := "incorrect answer",
             suspicious := false, suspiciousNote := "", timestamp := now },
           mapDelete s r.challengeID)) ∧
      (¬ now > pc.challenge.expiresAt →
        compareAnswers jc r.answer pc.expectedAnswer pc.challenge.challengeType →
        r.responseTimeMs > LatencyMaxAllowed →
        verifyResponse jc s r now =
          ({ challengeID := r.challengeID, nodeID := r.nodeID, passed := false,
             responseTimeMs := r.responseTimeMs,
             failureReason := "response too slow",
             suspicious := false, suspiciousNote := "", timestamp := now },
           mapDelete s r.challengeID)) ∧
      (¬ now > pc.challenge.expiresAt →
        compareAnswers jc r.answer pc.expectedAnswer pc.challenge.challengeType →
        ¬ r.responseTimeMs > LatencyMaxAllowed →
        verifyResponse jc s r now =
          ({ challengeID := r.challengeID, nodeID := r.nodeID, passed := true,
             responseTimeMs := r.responseTimeMs, failureReason := "",
             suspicious := false, suspiciousNote := "", timestamp := now },
           mapDelete s r.challengeID))) := by
  refine ⟨fun h => verifyResponse_not_found jc s r now h, fun pc hpc => ?_⟩
  refine ⟨fun h1 => ?_, fun h1 h2 => ?_, fun h1 h2 h3 => ?_, fun h1 h2 h3 => ?_⟩
  all_goals (unfold verifyResponse; rw [hpc]; simp [*])

/-- C4 witness: a wrong answer submitted with latency over the ceiling is
adjudicated "incorrect answer" (comparator checked before latency). -/
theorem C4_verifyResponse_evaluation_order_witness :
    verifyResponse jsonCanonNone examplePending (exampleResponse 6000 "xyz") 10 =
      ({ challengeID := "c1", nodeID := "n1", passed := false,
         responseTimeMs := 6000, failureReason := "incorrect answer",
         suspicious := false, suspiciousNote := "", timestamp := 10 }, []) :=
  ((C4_verifyResponse_evaluation_order jsonCanonNone examplePending
    (exampleResponse 6000 "xyz") 10).2 ⟨exampleChallenge, "abc"⟩
    (by decide)).2.1 (by decide) (by decide)

/-! ### Claim C3 -/

/-- C3: per challenge identifier, a sequential run of `VerifyResponse` calls
produces at most one result with `passed = true`, and any call made after a
prior call on the same challenge ID fails with
"challenge not found or expired" (the record is deleted on first
resolution, and the not-found case leaves the map unchanged). -/
theorem C3_at_most_one_pass (jc : String → Option String) (s : PendingMap)
    (c : String) (rs : List (ChallengeResponse × Int))
    (hc : ∀ p ∈ rs, p.1.challengeID = c) :
    ((runResponses jc s rs).countP (·.passed)) ≤ 1 ∧
    (∀ (r r' : ChallengeResponse) (now now' : Int),
      r'.challengeID = r.challengeID →
      (verifyResponse jc (verifyResponse jc s r now).2 r' now').1 =
        { challengeID := r'.challengeID, nodeID := r'.nodeID, passed := false,
          responseTimeMs := r'.responseTimeMs,
          failureReason := "challenge not found or expired",
          suspicious := false, suspiciousNote := "", timestamp := now' }) := by
  constructor
  · cases rs with
    | nil => simp [runResponses]
    | cons p rest =>
      obtain ⟨r, now⟩ := p
      have hid : r.challengeID = c := hc (r, now) (by simp)
      have hafter : mapLookup (verifyResponse jc s r now).2 c = none := by
        rw [← hid]
        exact verifyResponse_clears jc s r now
      have hrest := runResponses_no_pending jc c (verifyResponse jc s r now).2 rest
        hafter (fun q hq => hc q (List.mem_cons_of_mem _ hq))
      have hz : (runResponses jc (verifyResponse jc s r now).2 rest).countP (·.passed)
          = 0 := by
        rw [List.countP_eq_zero]
        intro a ha
        simp [hrest a ha]
      rw [runResponses, List.countP_cons, hz]
      split <;> simp
  · intro r r' now now' hid
    have hl : mapLookup (verifyResponse jc s r now).2 r'.challengeID = none := by
      rw [hid]
      exact verifyResponse_clears jc s r now
    rw [verifyResponse_not_found jc (verifyResponse jc s r now).2 r' now' hl]

/-- C3 witness: two submissions of the same (correct, timely) answer; only the
first one passes. -/
theorem C3_at_most_one_pass_witness :
    ((runResponses jsonCanonNone examplePending
      [(exampleResponse 50 "abc", 10), (exampleResponse 50 "abc", 20)]).countP
        (·.passed)) ≤ 1 :=
  (C3_at_most_one_pass jsonCanonNone examplePending "c1"
    [(exampleResponse 50 "abc", 10), (exampleResponse 50 "abc", 20)]
    (by decide)).1

/-! ### Claim C5 -/

/-- C5 counterexample: `VerifyExposedRPC` does not apply the latency policy of
`VerifyResponse`: a matching answer measured at 6000 ms (over the 5000 ms
ceiling) still passes, and a matching answer measured at 200 ms (over the
150 ms suspicious floor) is not marked suspicious. -/
theorem C5_counterexample_no_latency_policy :
    (verifyExposedRPC jsonCanonNone exampleNode exampleChallenge
      ⟨true, "abc", "", 10⟩ ⟨true, "abc", "", 6000⟩ 10).passed = true ∧
    (verifyExposedRPC jsonCanonNone exampleNode exampleChallenge
      ⟨true, "abc", "", 10⟩ ⟨true, "abc", "", 6000⟩ 10).responseTimeMs = 6000 ∧
    6000 > LatencyMaxAllowed ∧
    (verifyExposedRPC jsonCanonNone exampleNode exampleChallenge
      ⟨true, "abc", "", 10⟩ ⟨true, "abc", "", 200⟩ 10).suspicious = false ∧
    200 > LatencySuspiciousMin := by
  decide

/-- C5 (amended): `VerifyExposedRPC` applies the same answer comparator as
`VerifyResponse` but no latency policy at all: whenever both gateway calls
succeed and the answers match, the result passes with the measured latency
recorded, regardless of how large that latency is, and is never marked
suspicious. -/
theorem C5_exposed_rpc_no_latency_policy (jc : String → Option String)
    (node : NodeRegistration) (ch : Challenge) (er ur : RpcResponse) (now : Int)
    (hep : ¬ node.rpcEndpoint = "") (her : er.success = true)
    (hur : ur.success = true)
    (hcmp : compareAnswers jc ur.data er.data ch.challengeType = true) :
    verifyExposedRPC jc node ch er ur now =
      { challengeID := ch.id, nodeID := node.id, passed := true,
        responseTimeMs := ur.latencyMs, failureReason := "",
        suspicious := false, suspiciousNote := "", timestamp := now } := by
  unfold verifyExposedRPC
  simp [hep, her, hur, hcmp]

/-- C5 witness: the amended theorem applied at a matching answer measured at
6000 ms. -/
theorem C5_exposed_rpc_no_latency_policy_witness :
    verifyExposedRPC jsonCanonNone exampleNode exampleChallenge
      ⟨true, "abc", "", 10⟩ ⟨true, "abc", "", 6000⟩ 10 =
      { challengeID := "c1", nodeID := "n1", passed := true,
        responseTimeMs := 6000, failureReason := "",
        suspicious := false, suspiciousNote := "", timestamp := 10 } :=
  C5_exposed_rpc_no_latency_policy jsonCanonNone exampleNode exampleChallenge
    ⟨true, "abc", "", 10⟩ ⟨true, "abc", "", 6000⟩ 10
    (by decide) (by decide) (by decide) (by decide)

/-! ### Claim C6 -/

/-- C6 counterexample: when the reference gateway call fails,
`VerifyExposedRPC` does produce a candidate fail `VerificationResult`
(`passed = false`, attributed to the candidate node) instead of surfacing a
server-side error. -/
theorem C6_counterexample_oracle_failure_result :
    verifyExposedRPC jsonCanonNone exampleNode exampleChallenge
      ⟨false, "", "boom", 0⟩ ⟨true, "abc", "", 50⟩ 10 =
      { challengeID := "c1", nodeID := "n1", passed := false,
        responseTimeMs := 0, failureReason := "trusted node error: boom",
        suspicious := false, suspiciousNote := "", timestamp := 10 } := by
  decide

/-- C6 (amended): on oracle failure, `CreateChallenge` returns an error and
leaves the pending-challenge map unchanged (no entry inserted), while
`VerifyExposedRPC` returns a `passed = false` result for the candidate with
reason `"trusted node error: <error>"` rather than a server-side error. -/
theorem C6_oracle_failure_handling :
    (∀ (pending : PendingMap) (ch : Challenge) (resp : RpcResponse),
      resp.success = false →
      createChallenge pending ch resp =
        (Except.error ("failed to get expected answer: " ++ resp.error),
          pending)) ∧
    (∀ (jc : String → Option String) (node : NodeRegistration) (ch : Challenge)
      (er ur : RpcResponse) (now : Int),
      ¬ node.rpcEndpoint = "" → er.success = false →
      verifyExposedRPC jc node ch er ur now =
        { challengeID := ch.id, nodeID := node.id, passed := false,
          responseTimeMs := 0,
          failureReason := "trusted node error: " ++ er.error,
          suspicious := false, suspiciousNote := "", timestamp := now }) := by
  constructor
  · intro pending ch resp h
    unfold createChallenge
    simp [h]
  · intro jc node ch er ur now hep her
    unfold verifyExposedRPC
    simp [hep, her]

/-- C6 witness: the amended theorem applied at a failing oracle call. -/
theorem C6_oracle_failure_handling_witness :
    createChallenge examplePending exampleChallenge ⟨false, "", "down", 0⟩ =
      (Except.error "failed to get expected answer: down", examplePending) :=
  C6_oracle_failure_handling.1 examplePending exampleChallenge
    ⟨false, "", "down", 0⟩ (by decide)

/-! ### Claim C9 -/

/-- C9: the state-balance comparator is insensitive to case and surrounding
whitespace (it depends only on the normalised strings), compares the two
strings as arbitrary-precision integers when both parse as (optionally
0x-prefixed) hex, and falls back to equality of the normalised strings when
either side fails to parse; concretely `0x0a ~ 0x0A`, `0x0a ≁ 0x0b`, and
differently zero-padded encodings compare equal. -/
theorem C9_balance_comparator :
    (∀ (jc : String → Option String) (s s' e e' : String),
      normalize s = normalize s' → normalize e = normalize e' →
      compareAnswers jc s e StateBalance = compareAnswers jc s' e' StateBalance) ∧
    (∀ (jc : String → Option String) (s e : String) (a b : Int),
      bigIntSetString16 (drop0x (normalize s)) = some a →
      bigIntSetString16 (drop0x (normalize e)) = some b →
      (compareAnswers jc s e StateBalance = true ↔ a = b)) ∧
    (∀ (jc : String → Option String) (s e : String),
      bigIntSetString16 (drop0x (normalize s)) = none ∨
        bigIntSetString16 (drop0x (normalize e)) = none →
      (compareAnswers jc s e StateBalance = true ↔ normalize s = normalize e)) ∧
    compareAnswers jsonCanonNone "0x0a" "0x0A" StateBalance = true ∧
    compareAnswers jsonCanonNone "0x0a" "0x0b" StateBalance = false ∧
    compareAnswers jsonCanonNone "0x000A" "  0xa  " StateBalance = true := by
  have hne1 : ¬ (StateBalance = BlockHash) := by decide
  refine ⟨?_, ?_, ?_, by decide, by decide, by decide⟩
  · intro jc s s' e e' h1 h2
    simp only [compareAnswers]
    rw [h1, h2]
  · intro jc s e a b ha hb
    simp [compareAnswers, ha, hb, hne1]
  · intro jc s e h
    rcases h with h | h
    · simp [compareAnswers, h, hne1]
    · cases ha : bigIntSetString16 (drop0x (normalize s)) with
      | none => simp [compareAnswers, ha, hne1]
      | some a => simp [compareAnswers, ha, h, hne1]

/-- C9 witness: the parse-both branch applied at the two concrete encodings
of ten. -/
theorem C9_balance_comparator_witness :
    compareAnswers jsonCanonNone "0x0a" " 0X000A " StateBalance = true :=
  (C9_balance_comparator.2.1 jsonCanonNone "0x0a" " 0X000A " 10 10
    (by decide) (by decide)).mpr rfl

/-! ### Claim C10 -/

/-- Indexing below the length selects a member of the list. -/
theorem getD_mem_of_lt (l : List String) (n : Nat) (d : String)
    (h : n < l.length) : l.getD n d ∈ l := by
  rw [List.getD_eq_getElem?_getD, List.getElem?_eq_getElem h]
  simp

/-- The permitted-kind list of a tier is never empty. -/
theorem getAvailableChallengeTypes_ne_nil (t : String) :
    getAvailableChallengeTypes t ≠ [] := by
  unfold getAvailableChallengeTypes
  split_ifs <;> simp

/-- C10: every generated challenge expires exactly 60000 ms after creation
and its kind lies in the permitted set of the tier; the archive tier may draw any
of the four kinds, full tiers block-hash/block-data/sync-status, and every
other tier string (the fast tiers and any unrecognised tier) is restricted
to block-hash/sync-status rather than rejected. -/
theorem C10_generateChallenge_tiers (rand : Nat → Nat)
    (uuid nodeID nodeType : String) (now : Int) :
    (generateChallenge rand uuid nodeID nodeType now).expiresAt -
      (generateChallenge rand uuid nodeID nodeType now).createdAt = 60000 ∧
    (generateChallenge rand uuid nodeID nodeType now).challengeType ∈
      getAvailableChallengeTypes nodeType ∧
    getAvailableChallengeTypes BscArchive =
      [BlockHash, BlockData, StateBalance, SyncStatus] ∧
    getAvailableChallengeTypes BscFull = [BlockHash, BlockData, SyncStatus] ∧
    getAvailableChallengeTypes OpbnbFull = [BlockHash, BlockData, SyncStatus] ∧
    (∀ t : String, ¬ t = BscArchive → ¬ t = BscFull → ¬ t = OpbnbFull →
      getAvailableChallengeTypes t = [BlockHash, SyncStatus]) := by
  refine ⟨?_, ?_, by decide, by decide, by decide, ?_⟩
  · simp [generateChallenge]
  · have hne := getAvailableChallengeTypes_ne_nil nodeType
    have hpos : 0 < (getAvailableChallengeTypes nodeType).length :=
      List.length_pos.mpr hne
    simp only [generateChallenge]
    exact getD_mem_of_lt _ _ _ (Nat.mod_lt _ hpos)
  · intro t h1 h2 h3
    unfold getAvailableChallengeTypes
    rw [if_neg h1, if_neg (by simp [h2, h3])]

/-- C10 witness: an unrecognised tier string falls back to the most
restrictive kind set. -/
theorem C10_generateChallenge_tiers_witness :
    getAvailableChallengeTypes "quantum-tier" = [BlockHash, SyncStatus] :=
  (C10_generateChallenge_tiers (fun _ => 0) "u" "n" "quantum-tier" 0).2.2.2.2.2
    "quantum-tier" (by decide) (by decide) (by decide)

/-! ### Claim C7 -/

/-- C7 counterexample: the cheat status is not monotone: an admin review with
action "ban" followed by one with action "warn" on the same node moves the
status from Banned down to Warning, although neither operation is an
administrative clear to Clean. -/
theorem C7_counterexample_status_demotion :
    ((mapLookup (applyStoreOps exampleStore
        [StoreOp.review "n1" "ban" "caught"]).nodes "n1").map
      NodeRegistration.cheatStatus = some StatusBanned) ∧
    ((mapLookup (applyStoreOps exampleStore
        [StoreOp.review "n1" "ban" "caught",
         StoreOp.review "n1" "warn" "under appeal"]).nodes "n1").map
      NodeRegistration.cheatStatus = some StatusWarning) ∧
    cheatRank StatusWarning < cheatRank StatusBanned ∧
    opIsClearFor (StoreOp.review "n1" "warn" "under appeal") "n1" = false := by
  decide

/-- C7 (amended): across record / add-suspicious-event / admin-review store
operations, a node's warning count never decreases (below the `uint8` wrap
at 255) except via the administrative clear, and `SetNodeCheatStatus` to
Clean resets the warning count to zero, empties the suspicious-event ring
and sets the status Clean in the same operation; the cheat status itself is
not monotone (see the counterexample). -/
theorem C7_warning_count_monotone :
    (∀ (s : Store) (op : StoreOp) (nodeID : String) (node : NodeRegistration),
      mapLookup s.nodes nodeID = some node →
      opIsClearFor op nodeID = false →
      node.warningCount < 255 →
      ∃ node', mapLookup (applyStoreOp s op).nodes nodeID = some node' ∧
        node.warningCount ≤ node'.warningCount) ∧
    (∀ (s : Store) (nodeID reason : String) (node : NodeRegistration),
      mapLookup s.nodes nodeID = some node →
      mapLookup (setNodeCheatStatus s nodeID StatusClean reason).2.nodes nodeID =
        some { node with
          cheatStatus := StatusClean
          cheatReason := reason
          warningCount := 0
          suspiciousEvents := [] }) := by
  constructor
  · intro s op nodeID node hnode hclear hw
    cases op with
    | record result nowStr =>
      simp only [applyStoreOp]
      rw [recordVerificationResult_nodes]
      cases hsn : mapLookup s.nodes result.nodeID with
      | none =>
        simp only [hsn]
        exact ⟨node, hnode, le_refl _⟩
      | some n0 =>
        simp only [hsn]
        by_cases hid : nodeID = result.nodeID
        · subst hid
          refine ⟨recordResultNode node result nowStr, ?_, ?_⟩
          · rw [mapLookup_mapUpdate_self, hnode]
            rfl
          · cases hsusp : result.suspicious with
            | false =>
              exact le_of_eq
                (recordResultNode_not_suspicious node result nowStr hsusp).1.symm
            | true =>
              have := (recordResultNode_suspicious node result nowStr hsusp hw).1
              omega
        · exact ⟨node, by rw [mapLookup_mapUpdate_ne _ _ _ _ hid]; exact hnode,
            le_refl _⟩
    | addEvent nid reason nowStr =>
      simp only [applyStoreOp]
      rw [addSuspiciousEvent_nodes]
      cases hsn : mapLookup s.nodes nid with
      | none =>
        simp only [hsn]
        exact ⟨node, hnode, le_refl _⟩
      | some n0 =>
        simp only [hsn]
        by_cases hid : nodeID = nid
        · subst hid
          refine ⟨addSuspiciousEventNode node reason nowStr, ?_, ?_⟩
          · rw [mapLookup_mapUpdate_self, hnode]
            rfl
          · have := (addSuspiciousEventNode_fields node reason nowStr hw).1
            omega
        · exact ⟨node, by rw [mapLookup_mapUpdate_ne _ _ _ _ hid]; exact hnode,
            le_refl _⟩
    | review nid action reason =>
      simp only [applyStoreOp]
      unfold reviewNode
      cases hact : reviewActionStatus action with
      | none =>
        simp only [hact]
        exact ⟨node, hnode, le_refl _⟩
      | some status =>
        simp only [hact]
        rw [setNodeCheatStatus_nodes]
        cases hsn : mapLookup s.nodes nid with
        | none =>
          simp only [hsn]
          exact ⟨node, hnode, le_refl _⟩
        | some n0 =>
          simp only [hsn]
          by_cases hid : nodeID = nid
          · subst hid
            have hncl : ¬ action = "clear" := by
              intro hc
              simp [opIsClearFor, hc] at hclear
            have hstat : ¬ status = StatusClean := by
              unfold reviewActionStatus at hact
              rw [if_neg hncl] at hact
              by_cases hwarn : action = "warn"
              · rw [if_pos hwarn] at hact
                simp only [Option.some.injEq] at hact
                subst hact
                decide
              · rw [if_neg hwarn] at hact
                by_cases hban : action = "ban"
                · rw [if_pos hban] at hact
                  simp only [Option.some.injEq] at hact
                  subst hact
                  decide
                · rw [if_neg hban] at hact
                  cases hact
            refine ⟨setCheatStatusNode node status reason, ?_, ?_⟩
            · rw [mapLookup_mapUpdate_self, hnode]
              rfl
            · exact le_of_eq
                (setCheatStatusNode_not_clean node status reason hstat).1.symm
          · exact ⟨node, by rw [mapLookup_mapUpdate_ne _ _ _ _ hid]; exact hnode,
              le_refl _⟩
  · exact fun s nodeID reason node h =>
      setNodeCheatStatus_clean_resets s nodeID reason node h

/-- C7 witness: the amended theorem applied at a concrete suspicious event. -/
theorem C7_warning_count_monotone_witness :
    ∃ node', mapLookup (applyStoreOp exampleStore
        (StoreOp.addEvent "n1" "proxy latency" "T1")).nodes "n1" = some node' ∧
      exampleStoredNode.warningCount ≤ node'.warningCount :=
  C7_warning_count_monotone.1 exampleStore
    (StoreOp.addEvent "n1" "proxy latency" "T1") "n1" exampleStoredNode
    (by decide) (by decide) (by decide)

/-! ### Claim C8 -/

/-- Appending to the 20-capacity ring: the code form (append, then drop the
head when over capacity) equals dropping the oldest entry first. -/
theorem ringAppend20 (es : List String) (e : String) (hlen : es.length ≤ 20) :
    (if (es ++ [e]).length > 20 then (es ++ [e]).drop 1 else es ++ [e]) =
      (if es.length = 20 then es.drop 1 else es) ++ [e] := by
  by_cases h20 : es.length = 20
  · rw [if_pos (by simp [h20]), if_pos h20]
    cases es with
    | nil => simp at h20
    | cons a es' => simp
  · rw [if_neg (by simp; omega), if_neg h20]

/-- The ring never exceeds 20 entries. -/
theorem ringAppend20_length (es : List String) (e : String)
    (hlen : es.length ≤ 20) :
    ((if es.length = 20 then es.drop 1 else es) ++ [e]).length ≤ 20 := by
  by_cases h20 : es.length = 20
  · simp [h20]
  · simp [h20]
    omega

/-- C8: recording a suspicious result for a Clean node increments its
warning count by one and appends the event note to the 20-capacity ring
(oldest dropped first); the resulting status is Clean at count 1, Warning
from count 2, Flagged from count 5; an administrative clear afterwards
resets the count to zero, empties the ring and sets the status Clean. -/
theorem C8_trust_escalation (s : Store) (result : VerificationResult)
    (nowStr : String) (node : NodeRegistration)
    (hnode : mapLookup s.nodes result.nodeID = some node)
    (hsusp : result.suspicious = true)
    (hclean : node.cheatStatus = StatusClean)
    (hw : node.warningCount < 255)
    (hlen : node.suspiciousEvents.length ≤ 20) :
    ∃ node',
      mapLookup (recordVerificationResult s result nowStr).nodes
        result.nodeID = some node' ∧
      node'.warningCount = node.warningCount + 1 ∧
      node'.suspiciousEvents =
        (if node.suspiciousEvents.length = 20 then node.suspiciousEvents.drop 1
         else node.suspiciousEvents) ++
          [nowStr ++ ": " ++ (if result.suspiciousNote = "" then
            "Suspicious verification detected" else result.suspiciousNote)] ∧
      node'.suspiciousEvents.length ≤ 20 ∧
      node'.cheatStatus =
        (if node.warningCount + 1 ≥ 5 then StatusFlagged
         else if node.warningCount + 1 ≥ 2 then StatusWarning
         else StatusClean) ∧
      (∀ reason, ∃ node2,
        mapLookup (setNodeCheatStatus (recordVerificationResult s result nowStr)
          result.nodeID StatusClean reason).2.nodes result.nodeID = some node2 ∧
        node2.warningCount = 0 ∧ node2.suspiciousEvents = [] ∧
        node2.cheatStatus = StatusClean) := by
  obtain ⟨hwc, hevents, hstatus⟩ :=
    recordResultNode_suspicious node result nowStr hsusp hw
  have hlook : mapLookup (recordVerificationResult s result nowStr).nodes
      result.nodeID = some (recordResultNode node result nowStr) := by
    rw [recordVerificationResult_nodes]
    simp only [hnode]
    rw [mapLookup_mapUpdate_self, hnode]
    rfl
  refine ⟨recordResultNode node result nowStr, hlook, hwc, ?_, ?_, ?_, ?_⟩
  · rw [hevents, ringAppend20 _ _ hlen]
  · rw [hevents, ringAppend20 _ _ hlen]
    exact ringAppend20_length _ _ hlen
  · rw [hstatus, hclean]
  · intro reason
    exact ⟨_, setNodeCheatStatus_clean_resets _ _ _ _ hlook, rfl, rfl, rfl⟩

/-- C8 witness: the escalation theorem applied at a fresh Clean node and a
concrete suspicious result. -/
theorem C8_trust_escalation_witness :
    ∃ node',
      mapLookup (recordVerificationResult exampleStore exampleSuspiciousResult
        "T1").nodes exampleSuspiciousResult.nodeID = some node' ∧
      node'.warningCount = exampleStoredNode.warningCount + 1 ∧
      node'.suspiciousEvents =
        (if exampleStoredNode.suspiciousEvents.length = 20 then
          exampleStoredNode.suspiciousEvents.drop 1
         else exampleStoredNode.suspiciousEvents) ++
          [("T1" ++ ": " ++ (if exampleSuspiciousResult.suspiciousNote = "" then
            "Suspicious verification detected"
            else exampleSuspiciousResult.suspiciousNote))] ∧
      node'.suspiciousEvents.length ≤ 20 ∧
      node'.cheatStatus =
        (if exampleStoredNode.warningCount + 1 ≥ 5 then StatusFlagged
         else if exampleStoredNode.warningCount + 1 ≥ 2 then StatusWarning
         else StatusClean) ∧
      (∀ reason, ∃ node2,
        mapLookup (setNodeCheatStatus (recordVerificationResult exampleStore
          exampleSuspiciousResult "T1") exampleSuspiciousResult.nodeID
          StatusClean reason).2.nodes exampleSuspiciousResult.nodeID =
            some node2 ∧
        node2.warningCount = 0 ∧ node2.suspiciousEvents = [] ∧
        node2.cheatStatus = StatusClean) :=
  C8_trust_escalation exampleStore exampleSuspiciousResult "T1"
    exampleStoredNode (by decide) (by decide) (by decide) (by decide)
    (by decide)

end DePIN
